import Mathlib

/-!
Verification development for the telegram_forward_bot repository.

Text is modelled as `List Char` (Python `str` is a sequence of code points).
Each compiled regex of the source is embedded as a matcher
`List Char → Option Nat` that reports how many characters the pattern
consumes when it matches at the head of the input, reproducing the
leftmost/greedy semantics of `re.sub` for that concrete pattern; a generic
driver `subst` then mirrors `pattern.sub(repl, text)`.  Mutable objects
(`BotConfig`, `BotStats`, `AdminManager`, `TelegramForwardBot`) become a
`BotState` record and the handlers become state-passing functions.
-/

set_option maxRecDepth 4000

/-- Whitespace predicate of Python's `\s` for `str` patterns and of
`str.strip()` / `str.isspace()` (ASCII whitespace, the C1 separators and
the Unicode space code points). -/
def isPySpace (c : Char) : Bool :=
  let n := c.toNat
  n = 32 || (9 ≤ n && n ≤ 13) || (28 ≤ n && n ≤ 31) || n = 0x85 || n = 0xA0 ||
    n = 0x1680 || (0x2000 ≤ n && n ≤ 0x200A) || n = 0x2028 || n = 0x2029 ||
    n = 0x202F || n = 0x205F || n = 0x3000

/-- Character class `[a-zA-Z0-9-]` (the domain-label class of the source). -/
def isLabelChar (c : Char) : Bool :=
  ('a' ≤ c && c ≤ 'z') || ('A' ≤ c && c ≤ 'Z') || ('0' ≤ c && c ≤ '9') || c = '-'

/-- Character class `[a-zA-Z]`. -/
def isAsciiAlpha (c : Char) : Bool :=
  ('a' ≤ c && c ≤ 'z') || ('A' ≤ c && c ≤ 'Z')

/-- Character class `[a-zA-Z0-9_]` (Python `\w` restricted as written in the
source patterns). -/
def isWordChar (c : Char) : Bool :=
  ('a' ≤ c && c ≤ 'z') || ('A' ≤ c && c ≤ 'Z') || ('0' ≤ c && c ≤ '9') || c = '_'

/-- Character class `[A-Z]`. -/
def isUpperAZ (c : Char) : Bool :=
  'A' ≤ c && c ≤ 'Z'

/-- Emoji classes of `clean_text_formatting`:
`[\U0001F600-\U0001F64F\U0001F300-\U0001F5FF\U0001F680-\U0001F6FF\U0001F1E0-\U0001F1FF]`. -/
def isEmojiChar (c : Char) : Bool :=
  let n := c.toNat
  (0x1F600 ≤ n && n ≤ 0x1F64F) || (0x1F300 ≤ n && n ≤ 0x1F5FF) ||
    (0x1F680 ≤ n && n ≤ 0x1F6FF) || (0x1F1E0 ≤ n && n ≤ 0x1F1FF)

/-- Length of the maximal prefix whose characters satisfy `p` (how many
characters a greedy character-class star/plus consumes). -/
def takeWhileCount (p : Char → Bool) : List Char → Nat
  | [] => 0
  | c :: cs => if p c then takeWhileCount p cs + 1 else 0

/-- Match a literal pattern (given in lowercase) case-insensitively at the
head of `s`; on success return the rest of `s`.  This is ASCII case folding,
which is what the all-ASCII literals of the source patterns need under
`re.IGNORECASE`. -/
def stripLiteralCI (pat : List Char) (s : List Char) : Option (List Char) :=
  match pat, s with
  | [], rest => some rest
  | _ :: _, [] => none
  | p :: ps, c :: cs => if Char.toLower c = p then stripLiteralCI ps cs else none

/-- Generic driver mirroring `pattern.sub(repl, text)`: scan left to right,
at each position ask the matcher for a match; on a match of `n` characters
emit `repl` applied to the matched characters and resume after the match
(the replacement is not rescanned), otherwise keep the character.  Every
matcher in this file consumes at least one character when it matches;
`max n 1` only guards termination.  The fuel is the length of the input,
which suffices because each step consumes at least one character. -/
def substFuel (m : List Char → Option Nat) (repl : List Char → List Char) :
    Nat → List Char → List Char
  | 0, s => s
  | _ + 1, [] => []
  | f + 1, c :: cs =>
    match m (c :: cs) with
    | some n =>
      let k := max n 1
      repl ((c :: cs).take k) ++ substFuel m repl f ((c :: cs).drop k)
    | none => c :: substFuel m repl f cs

/-- Apply one regex substitution over the whole text. -/
def subst (m : List Char → Option Nat) (repl : List Char → List Char)
    (s : List Char) : List Char :=
  substFuel m repl s.length s

/-- Python `text.strip()`. -/
def pyStrip (s : List Char) : List Char :=
  ((s.dropWhile isPySpace).reverse.dropWhile isPySpace).reverse

/-- Python `l[-n:]` for `n > 0` (the last `n` elements). -/
def pyTakeLast {α : Type} (l : List α) (n : Nat) : List α :=
  l.drop (l.length - n)

/-- Python `s[:n]` for an `int` bound `n` (negative bounds count from the
end, as in `s[:m-3]` when `m < 3`). -/
def pySliceUpto (s : List Char) (n : Int) : List Char :=
  if 0 ≤ n then s.take n.toNat else s.take (s.length - (-n).toNat)

/-- Python `s.split(' ', 1)`: the part before the first literal space, and
the remainder after it when a space exists. -/
def splitFirstSpace : List Char → List Char × Option (List Char)
  | [] => ([], none)
  | c :: cs =>
    if c = ' ' then ([], some cs)
    else
      let r := splitFirstSpace cs
      (c :: r.1, r.2)

/-- Matcher for `https?://[^\s]+` (IGNORECASE). -/
def matchHttpUrl (s : List Char) : Option Nat :=
  match stripLiteralCI ("http".data) s with
  | none => none
  | some r1 =>
    let es :=
      match r1 with
      | c :: cs => if Char.toLower c = 's' then some cs else none
      | [] => none
    let (extra, r2) :=
      match es with
      | some cs => (1, cs)
      | none => (0, r1)
    match stripLiteralCI ("://".data) r2 with
    | none => none
    | some r3 =>
      let k := takeWhileCount (fun c => !isPySpace c) r3
      if k = 0 then none else some (4 + extra + 3 + k)

/-- Matcher for `www\.[^\s]+` (IGNORECASE). -/
def matchWwwUrl (s : List Char) : Option Nat :=
  match stripLiteralCI ("www.".data) s with
  | none => none
  | some r =>
    let k := takeWhileCount (fun c => !isPySpace c) r
    if k = 0 then none else some (4 + k)

/-- Matcher for `[a-zA-Z0-9-]+\.[a-zA-Z]{2,}[^\s]*`.  The label run is the
maximal one (`.` is not a label character, so the greedy `+` cannot give
characters back), then the dot, then at least two ASCII letters, then the
rest of the whitespace-free token. -/
def matchDomainUrl (s : List Char) : Option Nat :=
  let k := takeWhileCount isLabelChar s
  if k = 0 then none
  else
    match s.drop k with
    | '.' :: rest =>
      let m := takeWhileCount isAsciiAlpha rest
      if m < 2 then none
      else
        let t := takeWhileCount (fun c => !isPySpace c) rest
        some (k + 1 + t)
    | _ => none

/-- Matcher for `(?:https?://)?(?:t\.me|telegram\.me)/[^\s]+` (IGNORECASE).
If the optional scheme is present but the domain then fails, the scheme-less
alternative would have to read `t`/`telegram` where `h` stands, so no
backtracking over the option is needed; `t.me` and `telegram.me` are
prefix-incompatible. -/
def matchTme (s : List Char) : Option Nat :=
  let (sch, r) :=
    match stripLiteralCI ("https://".data) s with
    | some r => (8, r)
    | none =>
      match stripLiteralCI ("http://".data) s with
      | some r => (7, r)
      | none => (0, s)
  let tail := fun (rest : List Char) =>
    let k := takeWhileCount (fun c => !isPySpace c) rest
    if k = 0 then none else some k
  match stripLiteralCI ("t.me/".data) r with
  | some r2 => (tail r2).map (fun k => sch + 5 + k)
  | none =>
    match stripLiteralCI ("telegram.me/".data) r with
    | some r2 => (tail r2).map (fun k => sch + 12 + k)
    | none => none

/-- Matcher for `@[a-zA-Z0-9_]+`. -/
def matchMention (s : List Char) : Option Nat :=
  match s with
  | '@' :: rest =>
    let k := takeWhileCount isWordChar rest
    if k = 0 then none else some (1 + k)
  | _ => none

/-- Matcher for `tg://[^\s]+` (IGNORECASE). -/
def matchTgLink (s : List Char) : Option Nat :=
  match stripLiteralCI ("tg://".data) s with
  | none => none
  | some r =>
    let k := takeWhileCount (fun c => !isPySpace c) r
    if k = 0 then none else some (5 + k)

/-- Tail `@?[a-zA-Z0-9_]+` shared by the two channel-reference patterns.
When `@` is present but no word character follows, dropping the optional
`@` would make `[a-zA-Z0-9_]+` start at `@` and fail, so the whole tail
fails. -/
def matchHandleTail (r : List Char) : Option Nat :=
  match r with
  | '@' :: rest =>
    let k := takeWhileCount isWordChar rest
    if k = 0 then none else some (1 + k)
  | _ =>
    let k := takeWhileCount isWordChar r
    if k = 0 then none else some k

/-- Matcher for `(?:join|channel|group)[\s]*:[\s]*@?[a-zA-Z0-9_]+`
(IGNORECASE).  The three keywords are prefix-incompatible. -/
def matchChannelRef1 (s : List Char) : Option Nat :=
  let kw :=
    match stripLiteralCI ("join".data) s with
    | some r => some (4, r)
    | none =>
      match stripLiteralCI ("channel".data) s with
      | some r => some (7, r)
      | none =>
        match stripLiteralCI ("group".data) s with
        | some r => some (5, r)
        | none => none
  match kw with
  | none => none
  | some (klen, r) =>
    let w1 := takeWhileCount isPySpace r
    match r.drop w1 with
    | ':' :: r2 =>
      let w2 := takeWhileCount isPySpace r2
      (matchHandleTail (r2.drop w2)).map (fun t => klen + w1 + 1 + w2 + t)
    | _ => none

/-- Matcher for
`(?:telegram|tg)[\s]*(?:channel|group|chat)[\s]*:?[\s]*@?[a-zA-Z0-9_]+`
(IGNORECASE).  `telegram`/`tg` and `channel`/`group`/`chat` are pairwise
prefix-incompatible, and when the optional `:` is taken no later failure
can be repaired by dropping it, so committing is faithful. -/
def matchChannelRef2 (s : List Char) : Option Nat :=
  let kw1 :=
    match stripLiteralCI ("telegram".data) s with
    | some r => some (8, r)
    | none =>
      match stripLiteralCI ("tg".data) s with
      | some r => some (2, r)
      | none => none
  match kw1 with
  | none => none
  | some (k1, r1) =>
    let w1 := takeWhileCount isPySpace r1
    let r2 := r1.drop w1
    let kw2 :=
      match stripLiteralCI ("channel".data) r2 with
      | some r => some (7, r)
      | none =>
        match stripLiteralCI ("group".data) r2 with
        | some r => some (5, r)
        | none =>
          match stripLiteralCI ("chat".data) r2 with
          | some r => some (4, r)
          | none => none
    match kw2 with
    | none => none
    | some (k2, r3) =>
      let w2 := takeWhileCount isPySpace r3
      let (cl, r5) :=
        match r3.drop w2 with
        | ':' :: rest => (1, rest)
        | other => (0, other)
      let w3 := takeWhileCount isPySpace r5
      (matchHandleTail (r5.drop w3)).map
        (fun t => k1 + w1 + k2 + w2 + cl + w3 + t)

/-- Matcher for `\s+`. -/
def matchWsRun (s : List Char) : Option Nat :=
  let k := takeWhileCount isPySpace s
  if k = 0 then none else some k

/-- Matcher for `\n\s*\n`: a newline, then greedy whitespace backtracking
until the next character is a newline; the greedy engine keeps the last
newline inside the whitespace run that follows the opening one. -/
def matchBlankLines (s : List Char) : Option Nat :=
  match s with
  | '\n' :: rest =>
    let r := takeWhileCount isPySpace rest
    let run := (rest.take r).reverse
    let back := takeWhileCount (fun c => !(c = '\n')) run
    if back = run.length then none else some ((run.length - back - 1) + 2)
  | _ => none

/-- Matcher for a run of at least four copies of `c` (the `[!]{4,}`,
`[?]{4,}`, `[.]{4,}` patterns). -/
def matchCharRun4 (c : Char) (s : List Char) : Option Nat :=
  let k := takeWhileCount (fun d => d = c) s
  if 4 ≤ k then some k else none

/-- Matcher for `[A-Z]{4,}`. -/
def matchCapsRun (s : List Char) : Option Nat :=
  let k := takeWhileCount isUpperAZ s
  if 4 ≤ k then some k else none

/-- Matcher for `(emoji){4,}`. -/
def matchEmojiRun (s : List Char) : Option Nat :=
  let k := takeWhileCount isEmojiChar s
  if 4 ≤ k then some k else none

/-- Replacement `\1\1\1` for the emoji pattern: group 1 is the last
repetition, i.e. the last character of the match. -/
def emojiRepl (matched : List Char) : List Char :=
  match matched.getLast? with
  | some c => [c, c, c]
  | none => []

/-- Body of `MessageProcessor.remove_all_links` past the emptiness guard:
the three URL patterns, the three Telegram patterns, the two channel
patterns, then the whitespace cleanup, in source order. -/
def removeAllLinksPipeline (s0 : List Char) : List Char :=
  let s1 := subst matchHttpUrl (fun _ => []) s0
  let s2 := subst matchWwwUrl (fun _ => []) s1
  let s3 := subst matchDomainUrl (fun _ => []) s2
  let s4 := subst matchTme (fun _ => []) s3
  let s5 := subst matchMention (fun _ => []) s4
  let s6 := subst matchTgLink (fun _ => []) s5
  let s7 := subst matchChannelRef1 (fun _ => []) s6
  let s8 := subst matchChannelRef2 (fun _ => []) s7
  let s9 := subst matchWsRun (fun _ => [' ']) s8
  let s10 := subst matchBlankLines (fun _ => ['\n']) s9
  pyStrip s10

/-- `MessageProcessor.remove_all_links` on a string argument
(`if not text: return text`, then the pipeline). -/
def remove_all_links (s : List Char) : List Char :=
  if s = [] then s else removeAllLinksPipeline s

/-- `MessageProcessor.remove_all_links` as callable on `None` as well: the
`if not text: return text` guard returns the falsy argument itself. -/
def remove_all_links_opt : Option (List Char) → Option (List Char)
  | none => none
  | some s => if s = [] then some s else some (removeAllLinksPipeline s)

/-- `MessageProcessor.clean_text_formatting`: emoji runs of four or more
collapse to three copies of the last one, runs of four or more `!`/`?`/`.`
collapse to three, uppercase runs of four or more are cut to their first
three characters, then whitespace is collapsed and the ends trimmed. -/
def clean_text_formatting (s : List Char) : List Char :=
  if s = [] then s
  else
    let s1 := subst matchEmojiRun emojiRepl s
    let s2 := subst (matchCharRun4 '!') (fun _ => ['!', '!', '!']) s1
    let s3 := subst (matchCharRun4 '?') (fun _ => ['?', '?', '?']) s2
    let s4 := subst (matchCharRun4 '.') (fun _ => ['.', '.', '.']) s3
    let s5 := subst matchCapsRun (fun m => m.take 3) s4
    pyStrip (subst matchWsRun (fun _ => [' ']) s5)

/-- `MessageProcessor.add_custom_reference` with the processor's
`reference_text` made explicit: empty input yields the reference alone,
otherwise `f"{text}\n\n{self.reference_text}"`. -/
def add_custom_reference (referenceText t : List Char) : List Char :=
  if t = [] then referenceText else t ++ '\n' :: '\n' :: referenceText

/-- View of an incoming Telegram message as the core reads it:
`senderId` is `message.from_id.user_id` when `from_id` is present, `text`
distinguishes a missing text from an empty one, `media` is the truthiness
of `message.media`, and `senderIsBot` is `message.sender.bot` when a sender
with a `bot` attribute is available. -/
structure PyMessage where
  senderId : Option Int
  text : Option (List Char)
  media : Bool
  senderIsBot : Option Bool

/-- Python truthiness test `not message.text` (true for `None` and `""`). -/
def msgTextFalsy : Option (List Char) → Bool
  | none => true
  | some s => s.isEmpty

/-- Reason string `f"Message too short (< {min_length} characters)"`. -/
def tooShortReason (minLength : Int) : List Char :=
  ("Message too short (< ".data) ++ (toString minLength).data ++
    (" characters)".data)

/-- `MessageProcessor.should_forward_message`: the four reject rules in
source order, then approval. -/
def should_forward_message (msg : PyMessage) (minLength : Int) :
    Bool × List Char :=
  if msgTextFalsy msg.text && !msg.media then
    (false, ("Empty message".data))
  else if !msgTextFalsy msg.text &&
      ((pyStrip (msg.text.getD [])).length : Int) < minLength then
    (false, tooShortReason minLength)
  else
    let textWithoutLinks := remove_all_links (msg.text.getD [])
    if !msgTextFalsy msg.text &&
        ((pyStrip textWithoutLinks).length : Int) < 5 then
      (false, ("Message contains only links".data))
    else
      match msg.senderIsBot with
      | some true => (false, ("Message from bot".data))
      | _ => (true, ("Message approved for forwarding".data))

/-- `BotStats` dataclass; time is an abstract tick counter. -/
structure BotStats where
  messages_forwarded : Nat
  messages_skipped : Nat
  errors_count : Nat
  start_time : Nat
  last_message_time : Option Nat
  is_active : Bool
  uptime_seconds : Nat
deriving DecidableEq

/-- `BotStats()` freshly constructed at time `now` (the `__post_init__`
sets `start_time` to the current time; everything else defaults). -/
def BotStats.init (now : Nat) : BotStats :=
  { messages_forwarded := 0, messages_skipped := 0, errors_count := 0,
    start_time := now, last_message_time := none, is_active := false,
    uptime_seconds := 0 }

/-- Entry of `AdminManager.command_history`. -/
structure CommandLogEntry where
  timestamp : Nat
  command : List Char
  args : List Char
  user_id : Int
deriving DecidableEq

/-- Entry of `AdminManager.error_log`. -/
structure ErrorLogEntry where
  timestamp : Nat
  etype : List Char
  message : List Char
deriving DecidableEq

/-- Runtime-mutable configuration (`BotConfig`): the fields the core
reads/writes after startup. -/
structure ForwardConfig where
  reference_text : List Char
  channel_link : List Char
  min_message_length : Int
  max_message_length : Int
  forward_media : Bool
  admin_user_id : Int
deriving DecidableEq

/-- Combined mutable state of `TelegramForwardBot` and its `AdminManager`.
`processor_reference_text` is `MessageProcessor.reference_text`, captured
from `config.reference_text` once in `TelegramForwardBot.__init__` and
never reassigned afterwards. -/
structure BotState where
  is_forwarding : Bool
  config : ForwardConfig
  processor_reference_text : List Char
  stats : BotStats
  command_history : List CommandLogEntry
  error_log : List ErrorLogEntry
deriving DecidableEq

/-- History update of `AdminManager.log_command`: append, then keep only
the last 100 entries. -/
def logCommandHist (h : List CommandLogEntry) (e : CommandLogEntry) :
    List CommandLogEntry :=
  let h2 := h ++ [e]
  if h2.length > 100 then pyTakeLast h2 100 else h2

/-- `AdminManager.log_command`. -/
def log_command (st : BotState) (command args : List Char) (userId : Int)
    (now : Nat) : BotState :=
  let e : CommandLogEntry :=
    { timestamp := now, command := command, args := args, user_id := userId }
  { st with command_history := logCommandHist st.command_history e }

/-- Error-log update of `AdminManager.log_error`: append, then keep only
the last 50 entries. -/
def logErrorHist (l : List ErrorLogEntry) (e : ErrorLogEntry) :
    List ErrorLogEntry :=
  let l2 := l ++ [e]
  if l2.length > 50 then pyTakeLast l2 50 else l2

/-- `AdminManager.log_error`: append the entry and increment
`stats.errors_count`. -/
def log_error (st : BotState) (etype emessage : List Char) (now : Nat) :
    BotState :=
  let e : ErrorLogEntry :=
    { timestamp := now, etype := etype, message := emessage }
  { st with
      error_log := logErrorHist st.error_log e,
      stats := { st.stats with errors_count := st.stats.errors_count + 1 } }

/-- `AdminManager.update_stats` (the `start_time` truthiness guard always
holds: a datetime object is truthy). -/
def update_stats (st : BotState) (action : List Char) (now : Nat) :
    BotState :=
  let stats := st.stats
  let stats :=
    if action = ("message_forwarded".data) then
      { stats with messages_forwarded := stats.messages_forwarded + 1,
                   last_message_time := some now }
    else if action = ("message_skipped".data) then
      { stats with messages_skipped := stats.messages_skipped + 1 }
    else stats
  { st with stats :=
      { stats with uptime_seconds := now - stats.start_time } }

/-- Reply of the authorization failure in
`AdminManager.handle_admin_command`. -/
def unauthorizedReply : List Char :=
  ("❌ Unauthorized. Only admin can use bot commands.".data)

/-- `AdminManager.cmd_start_forwarding` (the bot instance is always wired
in `TelegramForwardBot.__init__`). -/
def cmd_start_forwarding (st : BotState) : BotState × List Char :=
  ({ st with is_forwarding := true,
             stats := { st.stats with is_active := true } },
   ("✅ **Message forwarding started!**\n\nBot is now actively forwarding messages from source to destination group.".data))

/-- `AdminManager.cmd_stop_forwarding`. -/
def cmd_stop_forwarding (st : BotState) : BotState × List Char :=
  ({ st with is_forwarding := false,
             stats := { st.stats with is_active := false } },
   ("⏹️ **Message forwarding stopped!**\n\nBot has stopped forwarding messages.".data))

/-- `AdminManager.cmd_reset_stats`: fresh `BotStats`, cleared histories;
nothing else of the state is touched. -/
def cmd_reset_stats (st : BotState) (now : Nat) : BotState × List Char :=
  ({ st with stats := BotStats.init now, command_history := [],
             error_log := [] },
   ("🔄 **Statistics Reset**\n\nAll bot statistics have been reset to zero.".data))

/-- `AdminManager.cmd_update_reference`: empty args yield the usage reply
and no mutation; otherwise `config.reference_text` is replaced in place.
`MessageProcessor.reference_text` is not touched by the source. -/
def cmd_update_reference (st : BotState) (args : List Char) :
    BotState × List Char :=
  if args = [] then
    (st, ("❌ Please provide new reference text.\nUsage: /update_reference <new text>".data))
  else
    ({ st with config := { st.config with reference_text := args } },
     ("✅ **Reference text updated!**\n\nNew reference: ".data) ++ args)

/-- `AdminManager.cmd_update_channel`. -/
def cmd_update_channel (st : BotState) (args : List Char) :
    BotState × List Char :=
  if args = [] then
    (st, ("❌ Please provide new channel link.\nUsage: /update_channel <new link>".data))
  else
    ({ st with config := { st.config with channel_link := args } },
     ("✅ **Channel link updated!**\n\nNew link: ".data) ++ args)

/-- Read-only report replies (`cmd_get_status`, `cmd_get_detailed_stats`,
`cmd_get_help`, `cmd_get_config`, `cmd_get_logs`, `cmd_test_connection`).
Their interpolated datetime/number rendering and the live connectivity
checks of `/test` are not reproduced; all six handlers leave the state
unchanged, which is what matters to every claim. -/
def statusReplyText : List Char := ("🤖 **Bot Status Report**".data)

/-- Reply header of `cmd_get_detailed_stats`. -/
def detailedStatsReplyText : List Char :=
  ("📊 **Detailed Bot Statistics**".data)

/-- Reply header of `cmd_get_help`. -/
def helpReplyText : List Char :=
  ("🤖 **Telegram Forward Bot - Admin Commands**".data)

/-- Reply header of `cmd_get_config`. -/
def configReplyText : List Char := ("⚙️ **Bot Configuration**".data)

/-- Reply header of `cmd_get_logs`. -/
def logsReplyText : List Char := ("🚨 **Recent Error Logs:**".data)

/-- Reply header of `cmd_test_connection`. -/
def testReplyText : List Char := ("🔍 **Connection Test Results:**".data)

/-- `AdminManager.cmd_unknown_command`. -/
def unknownCommandReply (command : List Char) : List Char :=
  ("❓ Unknown command: ".data) ++ command ++
    ("\n\nUse /help to see available commands.".data)

/-- `AdminManager.handle_admin_command` on the message text of the event:
authorization first (no state change, no log entry on failure), then
strip/split/casefold, then the unconditional `log_command`, then the
command-table dispatch. -/
def handle_admin_command (st : BotState) (senderId : Int)
    (messageText : List Char) (now : Nat) : BotState × List Char :=
  if senderId ≠ st.config.admin_user_id then (st, unauthorizedReply)
  else
    let mt := pyStrip messageText
    let parts := splitFirstSpace mt
    let command := parts.1.map Char.toLower
    let args := (parts.2).getD []
    let st := log_command st command args senderId now
    if command = ("/start".data) then cmd_start_forwarding st
    else if command = ("/stop".data) then cmd_stop_forwarding st
    else if command = ("/status".data) then (st, statusReplyText)
    else if command = ("/stats".data) then (st, detailedStatsReplyText)
    else if command = ("/help".data) then (st, helpReplyText)
    else if command = ("/config".data) then (st, configReplyText)
    else if command = ("/logs".data) then (st, logsReplyText)
    else if command = ("/reset_stats".data) then cmd_reset_stats st now
    else if command = ("/test".data) then (st, testReplyText)
    else if command = ("/update_reference".data) then
      cmd_update_reference st args
    else if command = ("/update_channel".data) then
      cmd_update_channel st args
    else (st, unknownCommandReply command)

/-- Composition tail of `TelegramForwardBot.process_message_content`
(main.py lines 200-205): truncate the body alone to
`max_message_length - 3` characters plus `"..."` when the body exceeds the
limit, then append the reference.  The truncation is applied to the body
only, never to the composed whole. -/
def composeWithReference (maxLen : Int) (referenceText t : List Char) :
    List Char :=
  let t2 :=
    if (t.length : Int) > maxLen then
      pySliceUpto t (maxLen - 3) ++ ("...".data)
    else t
  add_custom_reference referenceText t2

/-- `TelegramForwardBot.process_message_content`: sanitize, clean, truncate
and append the reference.  Any exception inside the `try` is caught and
yields `""`; `contentRaises` models whether one is raised. -/
def process_message_content (st : BotState) (msg : PyMessage)
    (contentRaises : Bool) : List Char :=
  if contentRaises then []
  else
    let text := msg.text.getD []
    let t1 := remove_all_links text
    let t2 := clean_text_formatting t1
    composeWithReference st.config.max_message_length
      st.processor_reference_text t2

/-- Outbound message as handed to `client.send_message`. -/
structure SentMessage where
  chatText : List Char
  withMedia : Bool
  buttonLink : List Char
deriving DecidableEq

/-- `TelegramForwardBot.process_and_forward_message`: self-echo skip,
decision, content processing (its failures yield `""` and fall into the
skip branch), send (`sendErr = some e` models a raising send, caught by
the outer handler which calls `log_error`), statistics update. -/
def process_and_forward_message (st : BotState) (msg : PyMessage)
    (selfId : Int) (contentRaises : Bool) (sendErr : Option (List Char))
    (now : Nat) : BotState × Option SentMessage :=
  if msg.senderId = some selfId then (st, none)
  else
    let dec := should_forward_message msg st.config.min_message_length
    if !dec.1 then (update_stats st ("message_skipped".data) now, none)
    else
      let processed := process_message_content st msg contentRaises
      if processed = [] then
        (update_stats st ("message_skipped".data) now, none)
      else
        match sendErr with
        | some emsg =>
          (log_error st ("Message processing error".data) emsg now, none)
        | none =>
          (update_stats st ("message_forwarded".data) now,
           some { chatText := processed,
                  withMedia := msg.media && st.config.forward_media,
                  buttonLink := st.config.channel_link })

/-- The `handle_source_message` event handler registered in
`TelegramForwardBot.register_handlers`: events are dropped before the
controller when `is_forwarding` is off. -/
def handle_source_message (st : BotState) (msg : PyMessage) (selfId : Int)
    (contentRaises : Bool) (sendErr : Option (List Char)) (now : Nat) :
    BotState × Option SentMessage :=
  if st.is_forwarding then
    process_and_forward_message st msg selfId contentRaises sendErr now
  else (st, none)

/-- Concrete runtime configuration used by the witness evaluations: the
startup reference text is `OLD`, the limits are the defaults of the
repository (`MIN_MESSAGE_LENGTH = 10`, `MAX_MESSAGE_LENGTH = 4000`,
`FORWARD_MEDIA` on) and the admin id is 42. -/
def sampleConfig : ForwardConfig :=
  { reference_text := "OLD".data, channel_link := "L".data,
    min_message_length := 10, max_message_length := 4000,
    forward_media := true, admin_user_id := 42 }

/-- Concrete freshly started bot state (forwarding already enabled by the
admin) used by the witness evaluations. -/
def sampleState : BotState :=
  { is_forwarding := true, config := sampleConfig,
    processor_reference_text := "OLD".data, stats := BotStats.init 0,
    command_history := [], error_log := [] }

/-- The text of the end-to-end example of the specification. -/
def c2Text : List Char :=
  ("Check this https://spam.example/x @spamuser".data)

/-- The end-to-end example message of the specification: sender 555, the
link/mention text above, no media, no bot flag. -/
def c2Message : PyMessage :=
  { senderId := some 555, text := some c2Text, media := false,
    senderIsBot := none }

/-- A plain message whose text survives sanitization unchanged. -/
def c1Message : PyMessage :=
  { senderId := some 556, text := some ("hello there friend".data),
    media := false, senderIsBot := none }

/-- A message with no text and no media. -/
def emptyMessage : PyMessage :=
  { senderId := some 1, text := none, media := false, senderIsBot := none }

/-- A concrete command-log entry for the ring-buffer witness. -/
def c9entry : CommandLogEntry :=
  { timestamp := 0, command := [], args := [], user_id := 0 }

/-- One driver step never lengthens the text when every replacement emits
at most one character (all substitutions inside `remove_all_links` replace
with `''`, `' '` or `'\n'`). -/
theorem substFuel_length_le {m : List Char → Option Nat}
    {repl : List Char → List Char} (hr : ∀ l, (repl l).length ≤ 1) :
    ∀ (f : Nat) (s : List Char), (substFuel m repl f s).length ≤ s.length := by
  intro f
  induction f with
  | zero => intro s; simp [substFuel]
  | succ f ih =>
    intro s
    cases s with
    | nil => simp [substFuel]
    | cons c cs =>
      cases hm : m (c :: cs) with
      | none =>
        simp only [substFuel, hm]
        simpa using ih cs
      | some n =>
        simp only [substFuel, hm, List.length_append, List.length_cons]
        have h1 := hr ((c :: cs).take (max n 1))
        have h2 := ih ((c :: cs).drop (max n 1))
        have h3 : ((c :: cs).drop (max n 1)).length
            = (c :: cs).length - (max n 1) := List.length_drop _ _
        simp only [List.length_cons] at h2 h3
        omega

/-- Substitution never lengthens the text (single-character replacements). -/
theorem subst_length_le (m : List Char → Option Nat)
    (repl : List Char → List Char) (hr : ∀ l, (repl l).length ≤ 1)
    (s : List Char) : (subst m repl s).length ≤ s.length :=
  substFuel_length_le hr s.length s

/-- Python `strip()` never lengthens the text. -/
theorem pyStrip_length_le (s : List Char) : (pyStrip s).length ≤ s.length := by
  unfold pyStrip
  calc ((s.dropWhile isPySpace).reverse.dropWhile isPySpace).reverse.length
      = ((s.dropWhile isPySpace).reverse.dropWhile isPySpace).length := by
        simp
    _ ≤ (s.dropWhile isPySpace).reverse.length :=
        (List.dropWhile_sublist _).length_le
    _ = (s.dropWhile isPySpace).length := by simp
    _ ≤ s.length := (List.dropWhile_sublist _).length_le

/-- The whole link-removal pipeline never lengthens the text. -/
theorem removeAllLinksPipeline_length_le (s : List Char) :
    (removeAllLinksPipeline s).length ≤ s.length := by
  unfold removeAllLinksPipeline
  refine le_trans (pyStrip_length_le _) ?_
  refine le_trans (subst_length_le _ _ (fun l => by simp) _) ?_
  refine le_trans (subst_length_le _ _ (fun l => by simp) _) ?_
  refine le_trans (subst_length_le _ _ (fun l => by simp) _) ?_
  refine le_trans (subst_length_le _ _ (fun l => by simp) _) ?_
  refine le_trans (subst_length_le _ _ (fun l => by simp) _) ?_
  refine le_trans (subst_length_le _ _ (fun l => by simp) _) ?_
  refine le_trans (subst_length_le _ _ (fun l => by simp) _) ?_
  refine le_trans (subst_length_le _ _ (fun l => by simp) _) ?_
  refine le_trans (subst_length_le _ _ (fun l => by simp) _) ?_
  exact subst_length_le _ _ (fun l => by simp) _

/-- `remove_all_links` never lengthens the text. -/
theorem remove_all_links_length_le (s : List Char) :
    (remove_all_links s).length ≤ s.length := by
  unfold remove_all_links
  by_cases h : s = []
  · simp [h]
  · simp only [h, if_false]
    exact removeAllLinksPipeline_length_le s

/-- The reference-append step never produces an empty message when the
reference text is non-empty. -/
theorem add_custom_reference_ne_nil (ref t : List Char) (h : ref ≠ []) :
    add_custom_reference ref t ≠ [] := by
  unfold add_custom_reference
  by_cases ht : t = []
  · rw [if_pos ht]; exact h
  · rw [if_neg ht]
    intro hx
    rcases List.append_eq_nil.mp hx with ⟨h1, -⟩
    exact ht h1

/-- Composition never produces an empty message when the reference text is
non-empty. -/
theorem composeWithReference_ne_nil (maxLen : Int) (ref t : List Char)
    (h : ref ≠ []) : composeWithReference maxLen ref t ≠ [] := by
  unfold composeWithReference
  exact add_custom_reference_ne_nil _ _ h

/-- A command-log append keeps the history within the 100-entry cap. -/
theorem logCommandHist_len_le (h : List CommandLogEntry) (e : CommandLogEntry)
    (hl : h.length ≤ 100) : (logCommandHist h e).length ≤ 100 := by
  unfold logCommandHist pyTakeLast
  by_cases hc : (h ++ [e]).length > 100
  · rw [if_pos hc]
    simp only [List.length_drop, List.length_append, List.length_cons,
      List.length_nil] at *
    omega
  · rw [if_neg hc]
    simp only [List.length_append, List.length_cons, List.length_nil] at *
    omega

/-- Any sequence of command-log appends keeps the history within the cap. -/
theorem foldl_logCommandHist_le (es : List CommandLogEntry) :
    ∀ (h : List CommandLogEntry), h.length ≤ 100 →
      (es.foldl logCommandHist h).length ≤ 100 := by
  induction es with
  | nil => intro h hl; simpa using hl
  | cons e es ih =>
    intro h hl
    simpa using ih (logCommandHist h e) (logCommandHist_len_le h e hl)

/-- C1: dispatching `/update_reference NEW` as the admin does replace
`config.reference_text` with `NEW`, but `MessageProcessor.reference_text`
keeps the value `OLD` captured at startup, and a message composed
afterwards still carries the trailer `OLD`, not the updated
`config.reference_text` — the update never reaches the composition path,
contradicting the claim that subsequent composes append the new text. -/
theorem c1_update_reference_leaves_processor_stale :
    (handle_admin_command sampleState 42 ("/update_reference NEW".data) 1).1.config.reference_text
      = ("NEW".data)
    ∧ (handle_admin_command sampleState 42 ("/update_reference NEW".data) 1).1.processor_reference_text
      = ("OLD".data)
    ∧ process_message_content
        (handle_admin_command sampleState 42 ("/update_reference NEW".data) 1).1
        c1Message false
      = ("hello there friend\n\nOLD".data)
    ∧ ("hello there friend\n\nOLD".data) ≠ ("hello there friend\n\nNEW".data) := by
  decide

/-- C2 (counterexample): for the end-to-end example text, the sanitized
body after strip is `"Check this"`, which is not empty as the claim
states. -/
theorem c2_sanitized_body_is_not_empty :
    remove_all_links c2Text = ("Check this".data)
    ∧ ("Check this".data) ≠ ([] : List Char) := by
  decide

/-- C2 (amended): for the example message with `minLength = 10` and the
default limits, the sanitized body is `"Check this"`, the sent text is
`"Check this\n\n"` followed by the startup reference text (not the
reference alone), and `messagesForwarded` increments by 1. -/
theorem c2_example_forwards_body_with_reference (st : BotState)
    (selfId : Int) (now : Nat)
    (hmin : st.config.min_message_length = 10)
    (hmax : st.config.max_message_length = 4000)
    (hself : selfId ≠ 555) :
    remove_all_links c2Text = ("Check this".data)
    ∧ (process_and_forward_message st c2Message selfId false none now).1.stats.messages_forwarded
        = st.stats.messages_forwarded + 1
    ∧ (process_and_forward_message st c2Message selfId false none now).2
        = some { chatText := ("Check this\n\n".data) ++ st.processor_reference_text,
                 withMedia := false,
                 buttonLink := st.config.channel_link } := by
  have hlinks : remove_all_links c2Text = ("Check this".data) := by decide
  have hclean : clean_text_formatting ("Check this".data)
      = ("Check this".data) := by decide
  have hdec : should_forward_message c2Message 10
      = (true, ("Message approved for forwarding".data)) := by decide
  have hcontent : process_message_content st c2Message false
      = ("Check this\n\n".data) ++ st.processor_reference_text := by
    simp only [process_message_content, Bool.false_eq_true, if_false]
    simp only [c2Message, Option.getD_some]
    rw [hlinks, hclean]
    unfold composeWithReference
    rw [hmax]
    rw [if_neg (by decide : ¬ (((("Check this".data) : List Char).length : Int) > 4000))]
    unfold add_custom_reference
    rw [if_neg (by decide : ("Check this".data) ≠ ([] : List Char))]
    rfl
  have hne : ("Check this\n\n".data) ++ st.processor_reference_text ≠ [] := by
    intro hx
    rcases List.append_eq_nil.mp hx with ⟨h1, -⟩
    exact (by decide : ("Check this\n\n".data) ≠ ([] : List Char)) h1
  have hfrom : ¬ (c2Message.senderId = some selfId) := by
    simp only [c2Message]
    intro h
    exact hself (Option.some.inj h).symm
  have hrun : process_and_forward_message st c2Message selfId false none now
      = (update_stats st ("message_forwarded".data) now,
         some { chatText := ("Check this\n\n".data) ++ st.processor_reference_text,
                withMedia := false,
                buttonLink := st.config.channel_link }) := by
    unfold process_and_forward_message
    rw [if_neg hfrom, hmin, hdec]
    simp only [Bool.not_true, if_false, Bool.false_eq_true]
    rw [hcontent]
    rw [if_neg hne]
    simp only [c2Message, Bool.false_and]
  have hupd : update_stats st ("message_forwarded".data) now
      = { st with stats :=
            { st.stats with
                messages_forwarded := st.stats.messages_forwarded + 1,
                last_message_time := some now,
                uptime_seconds := now - st.stats.start_time } } := by
    simp [update_stats]
  refine ⟨hlinks, ?_, ?_⟩
  · rw [hrun, hupd]
  · rw [hrun]

/-- C2 (witness): the amended theorem applied to the sample state. -/
theorem c2_example_forwards_body_with_reference_witness :
    sampleState.config.min_message_length = 10
    ∧ sampleState.config.max_message_length = 4000
    ∧ (999 : Int) ≠ 555
    ∧ (remove_all_links c2Text = ("Check this".data)
       ∧ (process_and_forward_message sampleState c2Message 999 false none 7).1.stats.messages_forwarded
           = sampleState.stats.messages_forwarded + 1
       ∧ (process_and_forward_message sampleState c2Message 999 false none 7).2
           = some { chatText := ("Check this\n\n".data) ++ sampleState.processor_reference_text,
                    withMedia := false,
                    buttonLink := sampleState.config.channel_link }) :=
  ⟨by decide, by decide, by decide,
   c2_example_forwards_body_with_reference sampleState 999 7 (by decide)
     (by decide) (by decide)⟩

/-- C3 (counterexample): the first rule does reject a message with no text
and no media, but its reason string is `"Empty message"`, not the claimed
exact string `"empty message"`. -/
theorem c3_empty_reason_is_capitalized :
    should_forward_message emptyMessage 10 = (false, ("Empty message".data))
    ∧ ("Empty message".data) ≠ ("empty message".data) := by
  decide

/-- C3 (amended): every message with falsy text and no media is rejected by
the first rule with reason `"Empty message"`, for every `minLength`. -/
theorem c3_empty_message_rejected_by_first_rule (msg : PyMessage)
    (minLength : Int) (ht : msgTextFalsy msg.text = true)
    (hm : msg.media = false) :
    should_forward_message msg minLength = (false, ("Empty message".data)) := by
  simp [should_forward_message, ht, hm]

/-- C3 (witness): the amended theorem applied to the concrete empty
message. -/
theorem c3_empty_message_rejected_by_first_rule_witness :
    msgTextFalsy emptyMessage.text = true
    ∧ emptyMessage.media = false
    ∧ should_forward_message emptyMessage 3 = (false, ("Empty message".data)) :=
  ⟨rfl, rfl, c3_empty_message_rejected_by_first_rule emptyMessage 3 rfl rfl⟩

/-- C4 (counterexample): when sanitizing/composing raises (the inner
`try` of `process_message_content` catches and returns `""`), the message
is counted in `messagesSkipped`, `errorsCount` stays 0 and no
`ErrorLogEntry` is appended — contrary to the claim that such failures are
counted in `errorsCount`. -/
theorem c4_content_exception_counted_as_skip :
    (process_and_forward_message sampleState c2Message 999 true none 7).1.stats.errors_count = 0
    ∧ (process_and_forward_message sampleState c2Message 999 true none 7).1.error_log = []
    ∧ (process_and_forward_message sampleState c2Message 999 true none 7).1.stats.messages_skipped = 1
    ∧ (process_and_forward_message sampleState c2Message 999 true none 7).2 = none := by
  decide

/-- C4 (amended): a failure of the send is caught at the controller
boundary, appends an `ErrorLogEntry`, increments `errorsCount` and drops
the message; a failure while sanitizing/composing is swallowed inside
`process_message_content`, and the message is dropped as a skip — counted
in `messagesSkipped`, with no error-log entry and no `errorsCount`
change. -/
theorem c4_failure_accounting_by_stage (st : BotState) (msg : PyMessage)
    (selfId : Int) (emsg : List Char) (now : Nat)
    (hself : msg.senderId ≠ some selfId)
    (hdec : (should_forward_message msg st.config.min_message_length).1 = true)
    (href : st.processor_reference_text ≠ [])
    (hlog : st.error_log.length < 50) :
    ((process_and_forward_message st msg selfId false (some emsg) now).1.stats.errors_count
        = st.stats.errors_count + 1
      ∧ (process_and_forward_message st msg selfId false (some emsg) now).1.stats.messages_forwarded
        = st.stats.messages_forwarded
      ∧ (process_and_forward_message st msg selfId false (some emsg) now).1.stats.messages_skipped
        = st.stats.messages_skipped
      ∧ (process_and_forward_message st msg selfId false (some emsg) now).1.error_log
        = st.error_log ++
            [{ timestamp := now, etype := ("Message processing error".data),
               message := emsg }]
      ∧ (process_and_forward_message st msg selfId false (some emsg) now).2 = none)
    ∧ ((process_and_forward_message st msg selfId true none now).1.stats.errors_count
        = st.stats.errors_count
      ∧ (process_and_forward_message st msg selfId true none now).1.error_log
        = st.error_log
      ∧ (process_and_forward_message st msg selfId true none now).1.stats.messages_skipped
        = st.stats.messages_skipped + 1
      ∧ (process_and_forward_message st msg selfId true none now).2 = none) := by
  have hproc : process_message_content st msg false ≠ [] := by
    simp only [process_message_content, if_false, Bool.false_eq_true]
    exact composeWithReference_ne_nil _ _ _ href
  have hA : process_and_forward_message st msg selfId false (some emsg) now
      = (log_error st ("Message processing error".data) emsg now, none) := by
    unfold process_and_forward_message
    rw [if_neg hself]
    simp only [hdec, Bool.not_true, if_false, Bool.false_eq_true]
    rw [if_neg hproc]
  have hB : process_and_forward_message st msg selfId true none now
      = (update_stats st ("message_skipped".data) now, none) := by
    unfold process_and_forward_message
    rw [if_neg hself]
    simp only [hdec, Bool.not_true, if_false, Bool.false_eq_true]
    have hpt : process_message_content st msg true = [] := rfl
    rw [if_pos hpt]
  have hupd : update_stats st ("message_skipped".data) now
      = { st with stats :=
            { st.stats with messages_skipped := st.stats.messages_skipped + 1,
                            uptime_seconds := now - st.stats.start_time } } := by
    have hne : ("message_skipped".data) ≠ ("message_forwarded".data) := by
      decide
    simp [update_stats, hne]
  have hlogerr : logErrorHist st.error_log
      { timestamp := now, etype := ("Message processing error".data),
        message := emsg }
      = st.error_log ++
          [{ timestamp := now, etype := ("Message processing error".data),
             message := emsg }] := by
    unfold logErrorHist
    rw [if_neg (by simp; omega)]
  constructor
  · rw [hA]
    refine ⟨rfl, rfl, rfl, ?_, rfl⟩
    simp only [log_error]
    exact hlogerr
  · rw [hB, hupd]
    exact ⟨rfl, rfl, rfl, rfl⟩

/-- C4 (witness): the amended theorem applied to the sample state and the
example message. -/
theorem c4_failure_accounting_by_stage_witness :
    c2Message.senderId ≠ some (999 : Int)
    ∧ (should_forward_message c2Message sampleState.config.min_message_length).1 = true
    ∧ sampleState.processor_reference_text ≠ []
    ∧ sampleState.error_log.length < 50
    ∧ (((process_and_forward_message sampleState c2Message 999 false (some ("boom".data)) 7).1.stats.errors_count
          = sampleState.stats.errors_count + 1
        ∧ (process_and_forward_message sampleState c2Message 999 false (some ("boom".data)) 7).1.stats.messages_forwarded
          = sampleState.stats.messages_forwarded
        ∧ (process_and_forward_message sampleState c2Message 999 false (some ("boom".data)) 7).1.stats.messages_skipped
          = sampleState.stats.messages_skipped
        ∧ (process_and_forward_message sampleState c2Message 999 false (some ("boom".data)) 7).1.error_log
          = sampleState.error_log ++
              [{ timestamp := 7, etype := ("Message processing error".data),
                 message := ("boom".data) }]
        ∧ (process_and_forward_message sampleState c2Message 999 false (some ("boom".data)) 7).2 = none)
      ∧ ((process_and_forward_message sampleState c2Message 999 true none 7).1.stats.errors_count
          = sampleState.stats.errors_count
        ∧ (process_and_forward_message sampleState c2Message 999 true none 7).1.error_log
          = sampleState.error_log
        ∧ (process_and_forward_message sampleState c2Message 999 true none 7).1.stats.messages_skipped
          = sampleState.stats.messages_skipped + 1
        ∧ (process_and_forward_message sampleState c2Message 999 true none 7).2 = none)) :=
  ⟨by decide, by decide, by decide, by decide,
   c4_failure_accounting_by_stage sampleState c2Message 999 ("boom".data) 7
     (by decide) (by decide) (by decide) (by decide)⟩

/-- C5: when the body exceeds `maxMessageLength` (at least 3), composition
truncates the body alone to `maxMessageLength - 3` characters plus `"..."`
and then appends the two-newline separator and the reference, so the
composed total has length `maxMessageLength + 2 + len(reference)` and
exceeds `maxMessageLength`; a body of length exactly `maxMessageLength` is
appended untruncated, and one of length `maxMessageLength + 1` is
truncated. -/
theorem c5_compose_truncates_body_only (maxLen : Int) (ref body : List Char)
    (h3 : 3 ≤ maxLen) :
    ((body.length : Int) > maxLen →
       composeWithReference maxLen ref body
         = (body.take (maxLen - 3).toNat ++ ("...".data)) ++ '\n' :: '\n' :: ref
       ∧ ((composeWithReference maxLen ref body).length : Int)
           = maxLen + 2 + ref.length
       ∧ maxLen < ((composeWithReference maxLen ref body).length : Int))
    ∧ ((body.length : Int) = maxLen →
       composeWithReference maxLen ref body = body ++ '\n' :: '\n' :: ref)
    ∧ ((body.length : Int) = maxLen + 1 →
       composeWithReference maxLen ref body
         = (body.take (maxLen - 3).toNat ++ ("...".data)) ++ '\n' :: '\n' :: ref) := by
  have hnn : 0 ≤ maxLen - 3 := by omega
  have htoNat : ((maxLen - 3).toNat : Int) = maxLen - 3 := Int.toNat_of_nonneg hnn
  have hmain : (body.length : Int) > maxLen →
      composeWithReference maxLen ref body
        = (body.take (maxLen - 3).toNat ++ ("...".data)) ++ '\n' :: '\n' :: ref := by
    intro hgt
    unfold composeWithReference pySliceUpto
    rw [if_pos hgt, if_pos hnn]
    unfold add_custom_reference
    rw [if_neg ?hne]
    case hne =>
      intro hx
      rcases List.append_eq_nil.mp hx with ⟨-, h2⟩
      exact (by decide : ("...".data) ≠ ([] : List Char)) h2
  refine ⟨fun hgt => ⟨hmain hgt, ?_, ?_⟩, fun heq => ?_, fun heq => hmain (by omega)⟩
  · rw [hmain hgt]
    have htk : (body.take (maxLen - 3).toNat).length = (maxLen - 3).toNat := by
      rw [List.length_take]
      omega
    have hdots : (("...".data) : List Char).length = 3 := by decide
    simp only [List.length_append, List.length_cons, htk, hdots]
    push_cast
    omega
  · rw [hmain hgt]
    have htk : (body.take (maxLen - 3).toNat).length = (maxLen - 3).toNat := by
      rw [List.length_take]
      omega
    have hdots : (("...".data) : List Char).length = 3 := by decide
    simp only [List.length_append, List.length_cons, htk, hdots]
    push_cast
    omega
  · unfold composeWithReference
    rw [if_neg (by omega)]
    unfold add_custom_reference
    rw [if_neg ?hb]
    case hb =>
      intro hx
      rw [hx] at heq
      simp only [List.length_nil, Nat.cast_zero] at heq
      omega

/-- C5 (witness): the theorem applied at `maxLen = 10` to a 13-character
body. -/
theorem c5_compose_truncates_body_only_witness :
    (3 : Int) ≤ 10
    ∧ ((("0123456789ABC".data) : List Char).length : Int) > 10
    ∧ composeWithReference 10 ("R".data) ("0123456789ABC".data)
        = (("0123456789ABC".data).take ((10 : Int) - 3).toNat ++ ("...".data))
            ++ '\n' :: '\n' :: ("R".data) :=
  ⟨by decide, by decide,
   ((c5_compose_truncates_body_only 10 ("R".data) ("0123456789ABC".data)
       (by decide)).1 (by decide)).1⟩

/-- C6 (counterexample): `strip` is not idempotent.  On `"ab@x_.cd"` the
mention pattern removes `"@x_"` and leaves `"ab.cd"`, which a second
application removes entirely via the domain pattern. -/
theorem c6_strip_not_idempotent :
    remove_all_links ("ab@x_.cd".data) = ("ab.cd".data)
    ∧ remove_all_links (remove_all_links ("ab@x_.cd".data)) = []
    ∧ remove_all_links (remove_all_links ("ab@x_.cd".data))
        ≠ remove_all_links ("ab@x_.cd".data) := by
  decide

/-- C6 (amended): a second application of `strip` can strip strictly more,
but it never lengthens the text: `len(strip(strip(x))) ≤ len(strip(x))`
and `len(strip(x)) ≤ len(x)` for every input. -/
theorem c6_strip_never_lengthens (x : List Char) :
    (remove_all_links (remove_all_links x)).length
        ≤ (remove_all_links x).length
    ∧ (remove_all_links x).length ≤ x.length :=
  ⟨remove_all_links_length_le _, remove_all_links_length_le _⟩

/-- C7 (counterexample): `strip` of a `None` input returns `None` (the
falsy argument itself), not the empty string the claim promises. -/
theorem c7_strip_of_none_is_none :
    remove_all_links_opt none = none
    ∧ remove_all_links_opt none ≠ some [] := by
  decide

/-- C7 (amended): `strip` is safe on empty or null input and returns the
falsy argument unchanged: the empty string maps to the empty string and
`None` maps to `None`. -/
theorem c7_strip_preserves_falsy_inputs :
    remove_all_links_opt (some []) = some []
    ∧ remove_all_links_opt none = none := by
  decide

/-- C8: a command line from any sender other than the configured admin
yields the fixed unauthorized reply and the state — including
`is_forwarding` and `command_history` — is returned unchanged. -/
theorem c8_unauthorized_command_is_inert (st : BotState) (senderId : Int)
    (messageText : List Char) (now : Nat)
    (h : senderId ≠ st.config.admin_user_id) :
    handle_admin_command st senderId messageText now
      = (st, unauthorizedReply) := by
  simp [handle_admin_command, h]

/-- C8 (witness): the theorem applied to a non-admin sender. -/
theorem c8_unauthorized_command_is_inert_witness :
    (7 : Int) ≠ sampleState.config.admin_user_id
    ∧ handle_admin_command sampleState 7 ("/stop".data) 0
        = (sampleState, unauthorizedReply) :=
  ⟨by decide,
   c8_unauthorized_command_is_inert sampleState 7 ("/stop".data) 0 (by decide)⟩

/-- C9: the command log is a FIFO ring buffer capped at 100 entries —
appending to a full buffer evicts exactly the oldest entry and keeps the
size at 100, an append never pushes the size above 100, and any sequence
of appends starting from the empty history stays within 100. -/
theorem c9_command_log_is_capped_fifo (h : List CommandLogEntry)
    (e : CommandLogEntry) (es : List CommandLogEntry) :
    (h.length = 100 →
      logCommandHist h e = h.drop 1 ++ [e]
      ∧ (logCommandHist h e).length = 100)
    ∧ (h.length ≤ 100 → (logCommandHist h e).length ≤ 100)
    ∧ (es.foldl logCommandHist []).length ≤ 100 := by
  refine ⟨?_, logCommandHist_len_le h e, foldl_logCommandHist_le es [] (by simp)⟩
  intro h100
  have hlen : (h ++ [e]).length = 101 := by simp [h100]
  have hgt : (h ++ [e]).length > 100 := by omega
  unfold logCommandHist pyTakeLast
  rw [if_pos hgt, hlen]
  have h1 : (101 : Nat) - 100 = 1 := rfl
  rw [h1, List.drop_append_of_le_length (by omega)]
  refine ⟨rfl, ?_⟩
  simp [List.length_drop, h100]

/-- C9 (witness): the theorem applied to a full 100-entry history. -/
theorem c9_command_log_is_capped_fifo_witness :
    (List.replicate 100 c9entry).length = 100
    ∧ logCommandHist (List.replicate 100 c9entry) c9entry
        = (List.replicate 100 c9entry).drop 1 ++ [c9entry]
    ∧ (logCommandHist (List.replicate 100 c9entry) c9entry).length = 100 :=
  ⟨by simp,
   ((c9_command_log_is_capped_fifo (List.replicate 100 c9entry) c9entry []).1
      (by simp)).1,
   ((c9_command_log_is_capped_fifo (List.replicate 100 c9entry) c9entry []).1
      (by simp)).2⟩

/-- C10: `cmd_reset_stats` issued while forwarding is enabled replaces the
statistics with a fresh `BotStats` (reported-active flag false, zeroed
counters), clears both logs, and leaves `is_forwarding`, the configuration
and the processor reference untouched — so the source-message gate still
hands every event to the forwarding controller even though the reported
status is inactive. -/
theorem c10_reset_stats_preserves_forwarding_gate (st : BotState) (now : Nat)
    (hfwd : st.is_forwarding = true) :
    (cmd_reset_stats st now).1.is_forwarding = st.is_forwarding
    ∧ (cmd_reset_stats st now).1.stats = BotStats.init now
    ∧ (cmd_reset_stats st now).1.stats.is_active = false
    ∧ (cmd_reset_stats st now).1.command_history = []
    ∧ (cmd_reset_stats st now).1.error_log = []
    ∧ (cmd_reset_stats st now).1.config = st.config
    ∧ (cmd_reset_stats st now).1.processor_reference_text
        = st.processor_reference_text
    ∧ ∀ (msg : PyMessage) (selfId : Int) (cr : Bool)
        (se : Option (List Char)) (n2 : Nat),
        handle_source_message (cmd_reset_stats st now).1 msg selfId cr se n2
          = process_and_forward_message (cmd_reset_stats st now).1 msg selfId cr se n2 := by
  refine ⟨rfl, rfl, rfl, rfl, rfl, rfl, rfl, ?_⟩
  intro msg selfId cr se n2
  simp [handle_source_message, cmd_reset_stats, hfwd]

/-- C10 (witness): the theorem applied to the sample state with forwarding
enabled. -/
theorem c10_reset_stats_preserves_forwarding_gate_witness :
    sampleState.is_forwarding = true
    ∧ ((cmd_reset_stats sampleState 3).1.is_forwarding
          = sampleState.is_forwarding
      ∧ (cmd_reset_stats sampleState 3).1.stats = BotStats.init 3
      ∧ (cmd_reset_stats sampleState 3).1.stats.is_active = false
      ∧ (cmd_reset_stats sampleState 3).1.command_history = []
      ∧ (cmd_reset_stats sampleState 3).1.error_log = []
      ∧ (cmd_reset_stats sampleState 3).1.config = sampleState.config
      ∧ (cmd_reset_stats sampleState 3).1.processor_reference_text
          = sampleState.processor_reference_text
      ∧ ∀ (msg : PyMessage) (selfId : Int) (cr : Bool)
          (se : Option (List Char)) (n2 : Nat),
          handle_source_message (cmd_reset_stats sampleState 3).1 msg selfId cr se n2
            = process_and_forward_message (cmd_reset_stats sampleState 3).1 msg selfId cr se n2) :=
  ⟨rfl, c10_reset_stats_preserves_forwarding_gate sampleState 3 rfl⟩
